import Mathlib

/-!
Verification development for the persona-pipeline repository.

The repository implements, in several near-identical variants, a pipeline
that applies a sequence of named "persona" prompt templates to an input
document, folding each persona's output into the context handed to later
personas, persisting the results, and letting a user chat about them.

This file gives a shallow embedding of the relevant Python code:

* `MultiPersona`   — `multi_persona_workflow_system.py` (class
  `MultiPersonaWorkflow`: `validate_workflow`, `execute_workflow`) and the
  identical context-accumulation loop of `persona_workflow.py`
  (`PersonaWorkflow.execute_workflow`).
* `Simplified`     — `src/simplified_models.py`, `src/simplified_workflow.py`
  (`SimpleWorkflowEngine`), `src/simplified_chat.py` (`SimpleChatSystem`).
* `Engine`         — `src/models.py`, `src/personas.py` (`PersonaManager`),
  `src/workflow_engine.py` (`WorkflowEngine`), `src/chat_system.py`
  (`ChatSystem`).
* `Advanced`       — `advanced_workflow.py` (`AdvancedWorkflowEngine`).

External collaborators (the OpenAI chat model, `json.loads`, clocks and
uuid generators) are modelled as explicit parameters: the completion
client is a function from the rendered prompt to the reply text, fresh
ids and timestamps are passed in, and `json.loads` is a parameter
returning `Option PyObj` (`none` models a raised `JSONDecodeError`).

Python `str.format` renders a template in a single pass, so templates are
embedded as lists of parts (`TmplPart`): literal chunks and the named
placeholders that the code uses (`{input}` / `{content}` /
`{document_content}` are the document slot, `{context}` the accumulated
context slot).  Placeholder text inside an argument is *not* re-expanded
by `str.format`, which the single-pass `renderTemplate` reproduces.
-/

/-- One part of a prompt template as consumed by Python's single-pass
`str.format`: a literal chunk, the document placeholder (`{input}`,
`{content}` or `{document_content}` depending on the variant), or the
accumulated-context placeholder (`{context}`). -/
inductive TmplPart where
  | lit (s : String)
  | inputSlot
  | contextSlot
deriving DecidableEq, Repr

/-- Single-pass rendering of a template against the document text and the
accumulated context, as done by `str.format` / LangChain prompt
templates in every variant. -/
def renderTemplate (inputData ctx : String) : List TmplPart → String
  | [] => ""
  | .lit s :: rest => s ++ renderTemplate inputData ctx rest
  | .inputSlot :: rest => inputData ++ renderTemplate inputData ctx rest
  | .contextSlot :: rest => ctx ++ renderTemplate inputData ctx rest

/-- `IsSubstrOf s t` : the string `s` occurs verbatim (contiguously) in `t`. -/
def IsSubstrOf (s t : String) : Prop := ∃ u v, t = u ++ s ++ v

theorem isSubstrOf_appendL (a b : String) : IsSubstrOf a (a ++ b) :=
  ⟨"", b, by rw [String.empty_append]⟩

theorem isSubstrOf_appendR (a b : String) : IsSubstrOf b (a ++ b) :=
  ⟨a, "", by rw [String.append_empty]⟩

theorem IsSubstrOf.trans {a b c : String} (h₁ : IsSubstrOf a b) (h₂ : IsSubstrOf b c) :
    IsSubstrOf a c := by
  obtain ⟨u, v, rfl⟩ := h₁
  obtain ⟨x, y, rfl⟩ := h₂
  exact ⟨x ++ u, v ++ y, by simp only [String.append_assoc]⟩

/-- If a template mentions the context placeholder, the rendered prompt
contains the context string verbatim. -/
theorem renderTemplate_contains_context (inputData ctx : String) :
    ∀ tmpl : List TmplPart, TmplPart.contextSlot ∈ tmpl →
      IsSubstrOf ctx (renderTemplate inputData ctx tmpl) := by
  intro tmpl hmem
  induction tmpl with
  | nil => cases hmem
  | cons hd rest ih =>
    cases hd with
    | lit s =>
      have hrest : TmplPart.contextSlot ∈ rest := by simpa using hmem
      obtain ⟨u, v, hu⟩ := ih hrest
      exact ⟨s ++ u, v, by simp [renderTemplate, hu, String.append_assoc]⟩
    | inputSlot =>
      have hrest : TmplPart.contextSlot ∈ rest := by simpa using hmem
      obtain ⟨u, v, hu⟩ := ih hrest
      exact ⟨inputData ++ u, v, by simp [renderTemplate, hu, String.append_assoc]⟩
    | contextSlot =>
      exact ⟨"", renderTemplate inputData ctx rest, by
        rw [renderTemplate, String.empty_append]⟩

namespace MultiPersona

/-- `multi_persona_workflow_system.py`, `@dataclass PersonaConfig`
(fields `output_format`, `temperature`, `max_tokens`, `required_inputs`
only configure the external completion client / config loader and are
not embedded). -/
structure PersonaConfig where
  name : String
  description : String
  prompt_template : List TmplPart
deriving DecidableEq, Repr

/-- One execution step as observed at the completion-client boundary:
which persona ran, the prompt that was rendered and sent to the client,
and the client's reply.  (`execute_workflow` itself returns the
`results` dict built from exactly these fields, plus cost metadata.) -/
structure StepTrace where
  persona_id : String
  persona_name : String
  prompt : String
  response : String
deriving DecidableEq, Repr

instance : Inhabited StepTrace := ⟨⟨"", "", "", ""⟩⟩

/-- The labelled text block that `execute_workflow` appends to the
accumulated context after each step:
`context += f"\n{name} Analysis:\n{response}\n"`
(line 501; same line in `persona_workflow.py` line 203). -/
def contextBlock (name response : String) : String :=
  "\n" ++ name ++ " Analysis:\n" ++ response ++ "\n"

/-- `MultiPersonaWorkflow.validate_workflow` (lines 419-435): collect an
issue string for every persona id in the sequence that is not in
`self.personas`. -/
def validate_workflow (personas : String → Option PersonaConfig) (seq : List String) :
    List String :=
  seq.filterMap fun pid =>
    if (personas pid).isSome then none else some ("Unknown persona: " ++ pid)

/-- The per-step loop of `MultiPersonaWorkflow.execute_workflow`
(lines 470-501): for each persona id, render its template against the
input data and the accumulated context, call the completion client
(`llm`), record the step, and extend the context with the labelled
block.  The second component counts completion-client calls.  An unknown
persona id raises `ValueError` inside `create_persona_chain`
(modelled as `Except.error`); `execute_workflow` validates first, so
after validation this branch is unreachable. -/
def runSteps (personas : String → Option PersonaConfig) (llm : String → String)
    (inputData : String) : List String → String → Except String (List StepTrace) × Nat
  | [], _ => (Except.ok [], 0)
  | pid :: rest, ctx =>
    match personas pid with
    | none => (Except.error ("Unknown persona: " ++ pid), 0)
    | some p =>
      let prompt := renderTemplate inputData ctx p.prompt_template
      let response := llm prompt
      let next := runSteps personas llm inputData rest (ctx ++ contextBlock p.name response)
      (next.1.map (fun ts => ⟨pid, p.name, prompt, response⟩ :: ts), next.2 + 1)

/-- `MultiPersonaWorkflow.execute_workflow` (lines 437-512): validate the
whole sequence first and raise `ValueError` before any completion-client
call if any persona id is unresolvable, otherwise run the sequential
loop starting from the empty context. -/
def execute_workflow (personas : String → Option PersonaConfig) (llm : String → String)
    (inputData : String) (seq : List String) : Except String (List StepTrace) × Nat :=
  match validate_workflow personas seq with
  | [] => runSteps personas llm inputData seq ""
  | issues =>
      (Except.error ("Workflow validation failed: " ++ String.intercalate ", " issues), 0)

end MultiPersona

namespace MultiPersona

/-- On success, the trace has one step per persona id in the sequence. -/
theorem runSteps_length (personas : String → Option PersonaConfig) (llm : String → String)
    (inputData : String) :
    ∀ (seq : List String) (ctx : String) (ts : List StepTrace) (k : Nat),
      runSteps personas llm inputData seq ctx = (Except.ok ts, k) →
      ts.length = seq.length := by
  intro seq
  induction seq with
  | nil =>
    intro ctx ts k h
    simp only [runSteps, Prod.mk.injEq, Except.ok.injEq] at h
    rw [← h.1]
    rfl
  | cons pid rest ih =>
    intro ctx ts k h
    cases hp : personas pid with
    | none => simp [runSteps, hp] at h
    | some p =>
      simp only [runSteps, hp] at h
      rcases hrec : runSteps personas llm inputData rest
          (ctx ++ contextBlock p.name
            (llm (renderTemplate inputData ctx p.prompt_template))) with ⟨e, k'⟩
      rw [hrec] at h
      cases e with
      | error msg => simp [Except.map] at h
      | ok ts' =>
        simp only [Except.map, Prod.mk.injEq, Except.ok.injEq] at h
        rw [← h.1]
        simp [ih _ _ _ hrec]

/-- Context-accumulation invariant of the sequential loop: in a
successful run started from accumulated context `ctx`, every step's
rendered prompt contains `ctx` verbatim, and contains the labelled
output block of every earlier step of the run, provided each persona's
template mentions the context placeholder. -/
theorem runSteps_prompt_contains (personas : String → Option PersonaConfig)
    (llm : String → String) (inputData : String) :
    ∀ (seq : List String) (ctx : String) (ts : List StepTrace) (k : Nat),
      runSteps personas llm inputData seq ctx = (Except.ok ts, k) →
      (∀ pid p, pid ∈ seq → personas pid = some p →
        TmplPart.contextSlot ∈ p.prompt_template) →
      ∀ n, n < ts.length →
        IsSubstrOf ctx ((ts.getD n default).prompt) ∧
        ∀ i, i < n →
          IsSubstrOf
            (contextBlock ((ts.getD i default).persona_name) ((ts.getD i default).response))
            ((ts.getD n default).prompt) := by
  intro seq
  induction seq with
  | nil =>
    intro ctx ts k h _ n hn
    simp only [runSteps, Prod.mk.injEq, Except.ok.injEq] at h
    rw [← h.1] at hn
    simp at hn
  | cons pid rest ih =>
    intro ctx ts k h hctx n hn
    cases hp : personas pid with
    | none => simp [runSteps, hp] at h
    | some p =>
      simp only [runSteps, hp] at h
      rcases hrec : runSteps personas llm inputData rest
          (ctx ++ contextBlock p.name
            (llm (renderTemplate inputData ctx p.prompt_template))) with ⟨e, k'⟩
      rw [hrec] at h
      cases e with
      | error msg => simp [Except.map] at h
      | ok ts' =>
        simp only [Except.map, Prod.mk.injEq, Except.ok.injEq] at h
        have hts : ts = ⟨pid, p.name, renderTemplate inputData ctx p.prompt_template,
            llm (renderTemplate inputData ctx p.prompt_template)⟩ :: ts' := h.1.symm
        have hmemctx : TmplPart.contextSlot ∈ p.prompt_template :=
          hctx pid p (List.mem_cons_self pid rest) hp
        have hctx' : ∀ pid' p', pid' ∈ rest → personas pid' = some p' →
            TmplPart.contextSlot ∈ p'.prompt_template :=
          fun pid' p' hm hp' => hctx pid' p' (List.mem_cons_of_mem pid hm) hp'
        subst hts
        cases n with
        | zero =>
          refine ⟨?_, by omega⟩
          simpa using renderTemplate_contains_context inputData ctx p.prompt_template hmemctx
        | succ m =>
          have hm : m < ts'.length := by simpa using hn
          obtain ⟨hbase, hblocks⟩ := ih _ _ _ hrec hctx' m hm
          have hctxsub : IsSubstrOf ctx ((ts'.getD m default).prompt) :=
            (isSubstrOf_appendL ctx _).trans hbase
          refine ⟨by simpa using hctxsub, ?_⟩
          intro i hi
          cases i with
          | zero =>
            have hblk : IsSubstrOf
                (contextBlock p.name (llm (renderTemplate inputData ctx p.prompt_template)))
                ((ts'.getD m default).prompt) :=
              (isSubstrOf_appendR ctx _).trans hbase
            simpa using hblk
          | succ j =>
            have hj : j < m := by omega
            simpa using hblocks j hj

/-- No-lookahead invariant: two runs of the loop that get the same
replies for the first `n` steps agree on their first `n` steps and
produce byte-identical rendered prompts (and persona names) at step
`n`.  In particular the prompt of step `n` is fully determined before
any later step's completion-client call is issued. -/
theorem runSteps_no_lookahead (personas : String → Option PersonaConfig)
    (f g : String → String) (inputData : String) :
    ∀ (seq : List String) (ctx : String) (ts us : List StepTrace) (k k' : Nat),
      runSteps personas f inputData seq ctx = (Except.ok ts, k) →
      runSteps personas g inputData seq ctx = (Except.ok us, k') →
      ∀ n, (∀ i, i < n → (ts.getD i default).response = (us.getD i default).response) →
        ts.take n = us.take n ∧
        (ts.getD n default).prompt = (us.getD n default).prompt ∧
        (ts.getD n default).persona_name = (us.getD n default).persona_name := by
  intro seq
  induction seq with
  | nil =>
    intro ctx ts us k k' hf hg n _
    simp only [runSteps, Prod.mk.injEq, Except.ok.injEq] at hf hg
    rw [← hf.1, ← hg.1]
    exact ⟨rfl, rfl, rfl⟩
  | cons pid rest ih =>
    intro ctx ts us k k' hf hg n hagree
    cases hp : personas pid with
    | none => simp [runSteps, hp] at hf
    | some p =>
      simp only [runSteps, hp] at hf hg
      rcases hrecf : runSteps personas f inputData rest
          (ctx ++ contextBlock p.name
            (f (renderTemplate inputData ctx p.prompt_template))) with ⟨ef, kf⟩
      rcases hrecg : runSteps personas g inputData rest
          (ctx ++ contextBlock p.name
            (g (renderTemplate inputData ctx p.prompt_template))) with ⟨eg, kg⟩
      rw [hrecf] at hf
      rw [hrecg] at hg
      cases ef with
      | error m => simp [Except.map] at hf
      | ok ts' =>
        cases eg with
        | error m => simp [Except.map] at hg
        | ok us' =>
          simp only [Except.map, Prod.mk.injEq, Except.ok.injEq] at hf hg
          have hts : ts = ⟨pid, p.name, renderTemplate inputData ctx p.prompt_template,
              f (renderTemplate inputData ctx p.prompt_template)⟩ :: ts' := hf.1.symm
          have hus : us = ⟨pid, p.name, renderTemplate inputData ctx p.prompt_template,
              g (renderTemplate inputData ctx p.prompt_template)⟩ :: us' := hg.1.symm
          subst hts
          subst hus
          cases n with
          | zero => exact ⟨rfl, rfl, rfl⟩
          | succ m =>
            have h0 : f (renderTemplate inputData ctx p.prompt_template) =
                g (renderTemplate inputData ctx p.prompt_template) := by
              have := hagree 0 (by omega)
              simpa using this
            rw [h0] at hrecf
            have hagree' : ∀ i, i < m →
                (ts'.getD i default).response = (us'.getD i default).response := by
              intro i hi
              have := hagree (i + 1) (by omega)
              simpa using this
            obtain ⟨htake, hprompt, hname⟩ := ih _ _ _ _ _ hrecf hrecg m hagree'
            refine ⟨?_, by simpa using hprompt, by simpa using hname⟩
            simp [List.take_succ_cons, htake, h0]

end MultiPersona

/-- C1: in a pipeline executed over a sequence of resolvable personas
(`MultiPersonaWorkflow.execute_workflow`; the loop of
`PersonaWorkflow.execute_workflow` is identical), the rendered prompt of
the step at position `n` contains, verbatim, the output of every earlier
step as a labelled text block (`"\n" ++ name ++ " Analysis:\n" ++ output
++ "\n"`), provided each persona's template mentions the `{context}`
placeholder (first conjunct); and the prompt of step `n` is already
determined by the outputs of steps `< n` alone — two completion clients
that agree on the first `n` replies yield byte-identical step-`n`
prompts — so no later step's output can influence (or appear in) it; at
`n = 0` this says the first persona's prompt is the same whatever any
persona's output is (second conjunct). -/
theorem C1_pipeline_context_visibility
    (personas : String → Option MultiPersona.PersonaConfig) (f g : String → String)
    (inputData : String) (seq : List String) (tf tg : List MultiPersona.StepTrace)
    (cf cg : Nat)
    (hf : MultiPersona.execute_workflow personas f inputData seq = (Except.ok tf, cf))
    (hg : MultiPersona.execute_workflow personas g inputData seq = (Except.ok tg, cg))
    (hctx : ∀ pid p, pid ∈ seq → personas pid = some p →
      TmplPart.contextSlot ∈ p.prompt_template)
    (n : Nat) (hn : n < tf.length) :
    (∀ i, i < n →
      IsSubstrOf
        (MultiPersona.contextBlock ((tf.getD i default).persona_name)
          ((tf.getD i default).response))
        ((tf.getD n default).prompt)) ∧
    ((∀ i, i < n → (tf.getD i default).response = (tg.getD i default).response) →
      (tf.getD n default).prompt = (tg.getD n default).prompt) := by
  have hrunf : MultiPersona.runSteps personas f inputData seq "" = (Except.ok tf, cf) := by
    unfold MultiPersona.execute_workflow at hf
    cases hval : MultiPersona.validate_workflow personas seq with
    | nil => rwa [hval] at hf
    | cons a as => rw [hval] at hf; simp at hf
  have hrung : MultiPersona.runSteps personas g inputData seq "" = (Except.ok tg, cg) := by
    unfold MultiPersona.execute_workflow at hg
    cases hval : MultiPersona.validate_workflow personas seq with
    | nil => rwa [hval] at hg
    | cons a as => rw [hval] at hg; simp at hg
  constructor
  · intro i hi
    exact (MultiPersona.runSteps_prompt_contains personas f inputData seq "" tf cf
      hrunf hctx n hn).2 i hi
  · intro hagree
    exact (MultiPersona.runSteps_no_lookahead personas f g inputData seq "" tf tg cf cg
      hrunf hrung n hagree).2.1

/-- Concrete two-persona registry for exercising `C1_pipeline_context_visibility`. -/
def c1Personas : String → Option MultiPersona.PersonaConfig := fun pid =>
  if pid = "risk_assessment" then
    some { name := "Risk Assessment Specialist",
           description := "Analyzes potential risks and their impact",
           prompt_template := [TmplPart.lit "Context from previous analysis: ",
             TmplPart.contextSlot, TmplPart.lit " Current information to analyze: ",
             TmplPart.inputSlot] }
  else if pid = "summary_only" then
    some { name := "Summary Specialist",
           description := "Creates concise summaries of complex information",
           prompt_template := [TmplPart.lit "Previous analyses: ", TmplPart.contextSlot] }
  else none

/-- Stub completion client: reply length identifies the prompt. -/
def c1Llm : String → String := fun prompt => "ANALYSIS(" ++ toString prompt.length ++ ")"

/-- The trace of the concrete two-step pipeline run. -/
def c1Trace : List MultiPersona.StepTrace :=
  (MultiPersona.execute_workflow c1Personas c1Llm "Claim amount: 15000"
    ["risk_assessment", "summary_only"]).1.toOption.getD []

theorem C1_pipeline_context_visibility_witness :
    (∀ i, i < 1 →
      IsSubstrOf
        (MultiPersona.contextBlock ((c1Trace.getD i default).persona_name)
          ((c1Trace.getD i default).response))
        ((c1Trace.getD 1 default).prompt)) ∧
    ((∀ i, i < 1 → (c1Trace.getD i default).response = (c1Trace.getD i default).response) →
      (c1Trace.getD 1 default).prompt = (c1Trace.getD 1 default).prompt) :=
  C1_pipeline_context_visibility c1Personas c1Llm c1Llm "Claim amount: 15000"
    ["risk_assessment", "summary_only"] c1Trace c1Trace 2 2 rfl rfl
    (by
      intro pid p _ hp
      simp only [c1Personas] at hp
      split_ifs at hp with h1 h2
      · injection hp with hp
        subst hp
        decide
      · injection hp with hp
        subst hp
        decide)
    1 (by decide)

/-- C2 (amended): in `MultiPersonaWorkflow.execute_workflow`, if any
persona id of the sequence cannot be resolved, the whole execution
raises `ValueError` at validation, before any completion-client call:
the result is an error and the number of client calls is zero. -/
theorem C2_unresolvable_id_fails_before_any_call
    (personas : String → Option MultiPersona.PersonaConfig) (llm : String → String)
    (inputData : String) (seq : List String) (pid : String)
    (hmem : pid ∈ seq) (hnone : personas pid = none) :
    (∃ e, (MultiPersona.execute_workflow personas llm inputData seq).1 = Except.error e) ∧
    (MultiPersona.execute_workflow personas llm inputData seq).2 = 0 := by
  have hval : MultiPersona.validate_workflow personas seq ≠ [] := by
    have hin : ("Unknown persona: " ++ pid) ∈ MultiPersona.validate_workflow personas seq := by
      simp only [MultiPersona.validate_workflow, List.mem_filterMap]
      exact ⟨pid, hmem, by rw [hnone]; rfl⟩
    intro hcon
    rw [hcon] at hin
    cases hin
  unfold MultiPersona.execute_workflow
  cases hv : MultiPersona.validate_workflow personas seq with
  | nil => exact absurd hv hval
  | cons a as => exact ⟨⟨_, rfl⟩, rfl⟩

/-- Registry with a single known persona id, for the C2 theorems. -/
def c2Personas : String → Option MultiPersona.PersonaConfig := fun pid =>
  if pid = "risk_assessment" then
    some { name := "Risk Assessment Specialist", description := "d",
           prompt_template := [TmplPart.lit "Context: ", TmplPart.contextSlot,
             TmplPart.lit " Input: ", TmplPart.inputSlot] }
  else none

theorem C2_unresolvable_id_fails_before_any_call_witness :
    (∃ e, (MultiPersona.execute_workflow c2Personas (fun _ => "out") "doc"
      ["risk_assessment", "ghost"]).1 = Except.error e) ∧
    (MultiPersona.execute_workflow c2Personas (fun _ => "out") "doc"
      ["risk_assessment", "ghost"]).2 = 0 :=
  C2_unresolvable_id_fails_before_any_call c2Personas (fun _ => "out") "doc"
    ["risk_assessment", "ghost"] "ghost" (by decide) (by rfl)

namespace Simplified

/-- `src/simplified_models.py`, class `Persona`.  The `{content}`
placeholder of `prompt_template` is the document slot
(`TmplPart.inputSlot`). -/
structure Persona where
  id : String
  name : String
  description : String
  prompt_template : List TmplPart
  analysis_focus : List String
  is_custom : Bool := false
  created_by : Option String := none
deriving DecidableEq, Repr

/-- `src/simplified_models.py`, class `Workflow`. -/
structure Workflow where
  id : String
  name : String
  description : String
  persona_ids : List String
  created_by : String
  created_at : String
deriving DecidableEq, Repr

/-- `src/simplified_models.py`, class `AnalysisResult`.  `results` is the
insertion-ordered mapping from persona id to that persona's output
(Python dict; a duplicate persona id in a workflow would overwrite its
entry, which the association list keeps as a second pair — no claim
involves duplicate ids). -/
structure AnalysisResult where
  id : String
  workflow_id : String
  document_name : String
  results : List (String × String)
  created_at : String
deriving DecidableEq, Repr

/-- `src/simplified_models.py`, class `DocumentInput`. -/
structure DocumentInput where
  content : String
  filename : String
deriving DecidableEq, Repr

/-- `SimpleWorkflowEngine.create_workflow` (`src/simplified_workflow.py`
lines 17-30): builds the `Workflow` record directly from the arguments —
the persona id list is stored verbatim and no lookup against the persona
manager happens here.  `uuid.uuid4()` and `datetime.now().isoformat()`
are the parameters `freshId` and `now`. -/
def create_workflow (freshId now name description : String)
    (persona_ids : List String) (created_by : String) : Workflow :=
  { id := freshId, name := name, description := description,
    persona_ids := persona_ids, created_by := created_by, created_at := now }

/-- `SimpleWorkflowEngine._analyze_with_persona` (lines 38-48): render the
persona's template against the document content and issue one
completion-client call. -/
def analyze_with_persona (llm : String → String) (p : Persona)
    (document_content : String) : String :=
  llm (renderTemplate document_content "" p.prompt_template)

/-- The per-id loop of `SimpleWorkflowEngine.execute_workflow`
(lines 58-66): an id that does not resolve is skipped silently (`if
persona:` with no else branch); a resolvable id produces one
completion-client call and one `results` entry.  The `except` branch
(which would store `"Error: ..."` in the slot) cannot fire here because
the completion client is modelled as a total function.  The second
component counts completion-client calls. -/
def runPersonaIds (registry : String → Option Persona) (llm : String → String)
    (document_content : String) : List String → List (String × String) × Nat
  | [] => ([], 0)
  | pid :: rest =>
    match registry pid with
    | none => runPersonaIds registry llm document_content rest
    | some p =>
      let next := runPersonaIds registry llm document_content rest
      ((pid, analyze_with_persona llm p document_content) :: next.1, next.2 + 1)

/-- `SimpleWorkflowEngine.execute_workflow` (lines 50-78), applied to an
already-resolved `Workflow` (the `workflow_id` lookup raising
`ValueError` when absent is not at issue in any claim about this
variant). -/
def execute_workflow (registry : String → Option Persona) (llm : String → String)
    (freshId now : String) (wf : Workflow) (doc : DocumentInput)
    (_user_id : String) : AnalysisResult × Nat :=
  let run := runPersonaIds registry llm doc.content wf.persona_ids
  ({ id := freshId, workflow_id := wf.id, document_name := doc.filename,
     results := run.1, created_at := now }, run.2)

/-- `SimpleWorkflowEngine.get_user_analyses` (lines 83-85): the source
comment reads "Simplified - no user tracking in this version"; it
returns every stored analysis result and ignores the `user_id`
argument. -/
def get_user_analyses (analysis_results : List AnalysisResult)
    (_user_id : String) : List AnalysisResult :=
  analysis_results

end Simplified

/-- Registry with one known persona id (`"p1"`), for the C2 counterexample. -/
def c2SimpleRegistry : String → Option Simplified.Persona := fun pid =>
  if pid = "p1" then
    some { id := "p1", name := "Contract Reviewer",
           description := "Analyzes contracts for risks, terms, and compliance",
           prompt_template := [TmplPart.lit "Analyze this contract document. Document: ",
             TmplPart.inputSlot],
           analysis_focus := ["legal_terms"] }
  else none

/-- C2 counterexample: `SimpleWorkflowEngine.execute_workflow` run on a
pipeline whose id list `["p1", "ghost"]` contains the unresolvable id
`"ghost"` does not fail as a whole: it completes and persists a result,
issues one completion-client call (not zero), and silently skips the
unresolvable step (the result has an entry for `"p1"` only). -/
theorem C2_counterexample_simple_engine_skips_silently :
    (Simplified.execute_workflow c2SimpleRegistry (fun _ => "stub analysis") "r1" "t0"
        (Simplified.create_workflow "w1" "t0" "wf" "d" ["p1", "ghost"] "alice")
        ⟨"doc text", "doc.txt"⟩ "alice").2 = 1 ∧
    (Simplified.execute_workflow c2SimpleRegistry (fun _ => "stub analysis") "r1" "t0"
        (Simplified.create_workflow "w1" "t0" "wf" "d" ["p1", "ghost"] "alice")
        ⟨"doc text", "doc.txt"⟩ "alice").1.results.map Prod.fst = ["p1"] :=
  ⟨rfl, rfl⟩

namespace Engine

/-- `src/models.py`, enum `PersonaType`. -/
inductive PersonaType where
  | PROMPT
  | AGENT
deriving DecidableEq, Repr

/-- `src/models.py`, class `Persona`.  The `{document_content}`
placeholder of `prompt_template` is the document slot
(`TmplPart.inputSlot`); none of this variant's templates use a context
placeholder. -/
structure Persona where
  id : String
  name : String
  description : String
  persona_type : PersonaType
  prompt_template : List TmplPart
  analysis_focus : List String
  is_custom : Bool := false
  created_by : Option String := none
deriving DecidableEq, Repr

/-- `src/models.py`, class `Workflow` (the resolved-persona list, not an
id list: `WorkflowEngine.create_workflow` stores `Persona` objects). -/
structure Workflow where
  id : String
  name : String
  description : String
  personas : List Persona
  created_by : String
  created_at : String
  is_active : Bool := true
deriving DecidableEq, Repr

/-- `src/models.py`, class `DocumentInput`. -/
structure DocumentInput where
  content : String
  filename : String
  file_type : String
deriving DecidableEq, Repr

/-- `PersonaManager.create_custom_persona` (`src/personas.py` lines
147-162): builds the persona with `persona_type=PersonaType.PROMPT`
("Custom personas default to prompt type") and `is_custom=True`
whatever the caller supplies, inserts it into `self.personas` under the
fresh id, and returns it. -/
def create_custom_persona (reg : String → Option Persona)
    (freshId name description : String) (prompt_template : List TmplPart)
    (analysis_focus : List String) (created_by : String) :
    Persona × (String → Option Persona) :=
  let persona : Persona :=
    { id := freshId, name := name, description := description,
      persona_type := PersonaType.PROMPT, prompt_template := prompt_template,
      analysis_focus := analysis_focus, is_custom := true,
      created_by := some created_by }
  (persona, Function.update reg freshId (some persona))

/-- `PersonaManager.delete_persona` (`src/personas.py` lines 164-171):
delete succeeds (returns `True` and removes the entry) only when the id
is present and the entry has `is_custom`; otherwise the registry is
unchanged and `False` is returned — no exception in either failure
case. -/
def delete_persona (reg : String → Option Persona) (persona_id : String) :
    Bool × (String → Option Persona) :=
  match reg persona_id with
  | some persona =>
      if persona.is_custom then (true, Function.update reg persona_id none)
      else (false, reg)
  | none => (false, reg)

/-- Python's `keyword in name` substring test on persona names. -/
def nameContains (name keyword : String) : Bool :=
  decide (keyword.data <:+: name.data)

/-- The code paths a persona's analysis can take in
`WorkflowEngine._create_persona_node` / `_execute_agent_analysis`. -/
inductive AnalysisPath where
  | prompt_analysis
  | contract_review_agent
  | financial_analysis_agent
  | risk_analysis_agent
  | market_analysis_agent
deriving DecidableEq, Repr

/-- Dispatch of `WorkflowEngine._execute_agent_analysis`
(`src/workflow_engine.py` lines 113-127): pick a specialized agent by
checking whether the persona's *name* contains a keyword; with no
keyword match, fall back to prompt-based analysis. -/
def agent_analysis_path (p : Persona) : AnalysisPath :=
  if nameContains p.name "Contract Review" then AnalysisPath.contract_review_agent
  else if nameContains p.name "Financial Analyst" then AnalysisPath.financial_analysis_agent
  else if nameContains p.name "Risk Management" then AnalysisPath.risk_analysis_agent
  else if nameContains p.name "Market Intelligence" then AnalysisPath.market_analysis_agent
  else AnalysisPath.prompt_analysis

/-- The branch inside `WorkflowEngine._create_persona_node` (lines
65-87): `PersonaType.PROMPT` personas go through
`_execute_prompt_analysis`, all others through
`_execute_agent_analysis`. -/
def persona_node_path (p : Persona) : AnalysisPath :=
  if p.persona_type = PersonaType.PROMPT then AnalysisPath.prompt_analysis
  else agent_analysis_path p

/-- `WorkflowEngine.create_workflow` (`src/workflow_engine.py` lines
36-55): each supplied persona id is looked up in the persona manager
and appended only `if persona:` — unresolvable ids are silently
dropped, and the `Workflow` stores the resolved `Persona` objects. -/
def create_workflow (registry : String → Option Persona)
    (freshId now name description : String) (persona_ids : List String)
    (created_by : String) : Workflow :=
  { id := freshId, name := name, description := description,
    personas := persona_ids.filterMap registry,
    created_by := created_by, created_at := now }

/-- The per-step record stored in `WorkflowState.results` by the node
functions (`_execute_prompt_analysis` / `_execute_agent_analysis`
return a dict with `persona_name`, `analysis` and bookkeeping
fields). -/
structure PersonaStepResult where
  persona_name : String
  analysis : String
deriving DecidableEq, Repr

/-- The mutable fields of `WorkflowState` (lines 14-27) touched by the
node functions: the insertion-ordered `results` dict keyed by persona
id, the error list, and the `completed_personas` counter. -/
structure WorkflowStateRec where
  results : List (String × PersonaStepResult)
  errors : List String
  completed_personas : Nat
deriving DecidableEq, Repr

/-- The node body made by `WorkflowEngine._create_persona_node` (lines
65-87), run over the linear chain that `execute_workflow` builds
(entry point = first persona, an edge from each persona to the next):
a successful analysis stores its result under the persona's id and
bumps the counter; a raised exception is caught and appended to
`state.errors`, leaving no result slot for that persona.  `step`
abstracts the completion-client interaction of
`_execute_prompt_analysis` / `_execute_agent_analysis`
(`Except.error` models a raised exception). -/
def run_persona_nodes (step : Persona → DocumentInput → Except String PersonaStepResult)
    (doc : DocumentInput) : List Persona → WorkflowStateRec → WorkflowStateRec
  | [], st => st
  | p :: rest, st =>
    match step p doc with
    | Except.ok r =>
        run_persona_nodes step doc rest
          { st with results := st.results ++ [(p.id, r)],
                    completed_personas := st.completed_personas + 1 }
    | Except.error e =>
        run_persona_nodes step doc rest
          { st with errors := st.errors ++ ["Error in " ++ p.name ++ ": " ++ e] }

/-- The `metadata` dict of an `AnalysisResult` as assembled by
`execute_workflow` (lines 348-353). -/
structure ResultMetadata where
  start_time : String
  total_personas : Nat
  completed_personas : Nat
  end_time : String
  errors : List String
  user_id : Option String
deriving DecidableEq, Repr

/-- `src/models.py`, class `AnalysisResult`. -/
structure AnalysisResult where
  id : String
  workflow_id : String
  document_name : String
  analysis_content : List (String × PersonaStepResult)
  persona_results : List (String × String)
  metadata : ResultMetadata
  created_at : String
deriving DecidableEq, Repr

/-- `WorkflowEngine.execute_workflow` (`src/workflow_engine.py` lines
306-358).  After the graph run, line 346 builds `persona_results` as
`{persona.id: result.get("analysis", "") for persona, result in
final_state.results.items()}`: the iteration variable `persona` is the
*string* key of the `results` dict, so `persona.id` raises
`AttributeError: 'str' object has no attribute 'id'` as soon as the
comprehension evaluates its first item — i.e. whenever at least one
step stored a result.  Only the empty-`results` case (every step
raised, or the workflow has no personas) reaches the `AnalysisResult`
constructor; that case records the submitting user in
`metadata["user_id"]`. -/
def execute_workflow (workflows : String → Option Workflow)
    (step : Persona → DocumentInput → Except String PersonaStepResult)
    (freshId startTime endTime : String) (workflow_id : String)
    (doc : DocumentInput) (user_id : String) : Except String AnalysisResult :=
  match workflows workflow_id with
  | none => Except.error ("Workflow " ++ workflow_id ++ " not found")
  | some workflow =>
    let final := run_persona_nodes step doc workflow.personas
      { results := [], errors := [], completed_personas := 0 }
    match final.results with
    | [] =>
        Except.ok
          { id := freshId, workflow_id := workflow_id,
            document_name := doc.filename,
            analysis_content := [], persona_results := [],
            metadata := { start_time := startTime,
                          total_personas := workflow.personas.length,
                          completed_personas := final.completed_personas,
                          end_time := endTime, errors := final.errors,
                          user_id := some user_id },
            created_at := endTime }
    | _ => Except.error "AttributeError: 'str' object has no attribute 'id'"

/-- `WorkflowEngine.get_user_analyses` (lines 364-367): filter the stored
results by the `user_id` recorded in their metadata. -/
def get_user_analyses (analysis_results : List AnalysisResult)
    (user_id : String) : List AnalysisResult :=
  analysis_results.filter (fun r => decide (r.metadata.user_id = some user_id))

end Engine

/-- With the dict invariant of `PersonaManager` (`self.personas[p.id] = p`),
the personas that `WorkflowEngine.create_workflow` keeps are exactly the
resolvable ids, in order. -/
theorem engine_create_workflow_keeps_resolvable_ids
    (registry : String → Option Engine.Persona)
    (hreg : ∀ pid p, registry pid = some p → p.id = pid) :
    ∀ persona_ids : List String,
      (persona_ids.filterMap registry).map Engine.Persona.id
        = persona_ids.filter (fun pid => (registry pid).isSome) := by
  intro persona_ids
  induction persona_ids with
  | nil => rfl
  | cons pid rest ih =>
    cases hp : registry pid with
    | none => simp [List.filterMap_cons, List.filter_cons, hp, ih]
    | some p =>
      simp [List.filterMap_cons, List.filter_cons, hp, ih, hreg pid p hp]

/-- C4 (amended): `SimpleWorkflowEngine.create_workflow` stores the given
persona id list verbatim and in order, with no registry lookup at
creation time — creating a pipeline that references unknown persona ids
succeeds with the stored list equal to the supplied list element for
element.  `WorkflowEngine.create_workflow`, by contrast, resolves each
id against the registry at creation time and silently drops the ids
that do not resolve: it stores exactly the resolvable ids' personas, in
order. -/
theorem C4_create_pipeline_stores_ids
    (freshId now name description created_by : String) (persona_ids : List String)
    (registry : String → Option Engine.Persona)
    (hreg : ∀ pid p, registry pid = some p → p.id = pid) :
    (Simplified.create_workflow freshId now name description persona_ids
        created_by).persona_ids = persona_ids ∧
    (Engine.create_workflow registry freshId now name description persona_ids
        created_by).personas.map Engine.Persona.id
      = persona_ids.filter (fun pid => (registry pid).isSome) :=
  ⟨rfl, engine_create_workflow_keeps_resolvable_ids registry hreg persona_ids⟩

/-- One-custom-persona registry for the C4 witness. -/
def c4Registry : String → Option Engine.Persona := fun pid =>
  if pid = "tr" then
    some { id := "tr", name := "Technical Reviewer", description := "d",
           persona_type := Engine.PersonaType.PROMPT,
           prompt_template := [TmplPart.lit "Review: ", TmplPart.inputSlot],
           analysis_focus := ["specifications"] }
  else none

theorem C4_create_pipeline_stores_ids_witness :
    (Simplified.create_workflow "w1" "t0" "wf" "d" ["tr", "ghost"] "alice").persona_ids
      = ["tr", "ghost"] ∧
    (Engine.create_workflow c4Registry "w1" "t0" "wf" "d" ["tr", "ghost"]
        "alice").personas.map Engine.Persona.id
      = (["tr", "ghost"].filter (fun pid => (c4Registry pid).isSome)) :=
  C4_create_pipeline_stores_ids "w1" "t0" "wf" "d" "alice" ["tr", "ghost"] c4Registry
    (by
      intro pid p hp
      simp only [c4Registry] at hp
      split_ifs at hp with h1
      · injection hp with hp
        subst hp
        exact h1.symm)

/-- C4 counterexample: `WorkflowEngine.create_workflow` (one of the two
creation paths the claim covers) does check the registry at creation
time and silently drops unknown ids — with an empty registry, a
pipeline created over `["ghost"]` does not store the supplied list. -/
theorem C4_counterexample_engine_checks_registry_at_creation :
    (Engine.create_workflow (fun _ => none) "w1" "t0" "wf" "d" ["ghost"]
        "alice").personas.map Engine.Persona.id ≠ ["ghost"] := by
  decide

/-- C6: `PersonaManager.delete_persona` succeeds (returns `true`) iff the
id resolves in the registry and the entry is caller-defined
(`is_custom`); in particular deleting a built-in persona returns
failure, not an exception, whatever the id; and after a successful
delete, a second delete of the same id returns failure. -/
theorem C6_delete_persona_policy (reg : String → Option Engine.Persona) (pid : String) :
    ((Engine.delete_persona reg pid).1 = true ↔
      ∃ p, reg pid = some p ∧ p.is_custom = true) ∧
    ((Engine.delete_persona reg pid).1 = true →
      (Engine.delete_persona (Engine.delete_persona reg pid).2 pid).1 = false) := by
  cases hp : reg pid with
  | none =>
    constructor
    · constructor
      · intro h
        simp [Engine.delete_persona, hp] at h
      · rintro ⟨p, hp2, -⟩
        cases hp2
    · intro h
      simp [Engine.delete_persona, hp] at h
  | some p =>
    by_cases hc : p.is_custom = true
    · constructor
      · constructor
        · intro _
          exact ⟨p, rfl, hc⟩
        · intro _
          simp [Engine.delete_persona, hp, hc]
      · intro _
        simp [Engine.delete_persona, hp, hc, Function.update_same]
    · constructor
      · constructor
        · intro h
          simp [Engine.delete_persona, hp, hc] at h
        · rintro ⟨q, hq, hqc⟩
          injection hq with hq
          subst hq
          exact absurd hqc hc
      · intro h
        simp [Engine.delete_persona, hp, hc] at h

/-- Registry holding one built-in and one custom persona, for the C6
witness. -/
def c6Registry : String → Option Engine.Persona := fun pid =>
  if pid = "builtin1" then
    some { id := "builtin1", name := "Contract Review Specialist", description := "d",
           persona_type := Engine.PersonaType.AGENT,
           prompt_template := [TmplPart.lit "Analyze: ", TmplPart.inputSlot],
           analysis_focus := ["legal_terms"], is_custom := false }
  else if pid = "custom1" then
    some { id := "custom1", name := "My Custom Persona", description := "d",
           persona_type := Engine.PersonaType.PROMPT,
           prompt_template := [TmplPart.lit "Custom: ", TmplPart.inputSlot],
           analysis_focus := [], is_custom := true, created_by := some "alice" }
  else none

theorem C6_delete_persona_policy_witness :
    ((Engine.delete_persona c6Registry "custom1").1 = true ↔
      ∃ p, c6Registry "custom1" = some p ∧ p.is_custom = true) ∧
    ((Engine.delete_persona c6Registry "custom1").1 = true →
      (Engine.delete_persona (Engine.delete_persona c6Registry "custom1").2
        "custom1").1 = false) :=
  C6_delete_persona_policy c6Registry "custom1"

/-- C10: every persona built by `PersonaManager.create_custom_persona`
has `persona_type = PROMPT` and `is_custom = true` regardless of the
caller's arguments, so `_create_persona_node` always routes it through
the plain prompt-analysis path and never through any of the
name-keyword-dispatched agent paths — even if its name contains one of
the dispatch keywords. -/
theorem C10_custom_personas_use_prompt_path
    (reg : String → Option Engine.Persona)
    (freshId name description created_by : String)
    (prompt_template : List TmplPart) (analysis_focus : List String) :
    (Engine.create_custom_persona reg freshId name description prompt_template
        analysis_focus created_by).1.persona_type = Engine.PersonaType.PROMPT ∧
    (Engine.create_custom_persona reg freshId name description prompt_template
        analysis_focus created_by).1.is_custom = true ∧
    Engine.persona_node_path
        (Engine.create_custom_persona reg freshId name description prompt_template
          analysis_focus created_by).1 = Engine.AnalysisPath.prompt_analysis :=
  ⟨rfl, rfl, rfl⟩

/-- The resolved custom persona used as C5's failing input. -/
def c5Persona : Engine.Persona :=
  { id := "p1", name := "My Summary Persona", description := "d",
    persona_type := Engine.PersonaType.PROMPT,
    prompt_template := [TmplPart.lit "Summarize: ", TmplPart.inputSlot],
    analysis_focus := [], is_custom := true, created_by := some "alice" }

/-- Workflow store holding one workflow whose (resolved) persona list is
`[c5Persona]`. -/
def c5Workflows : String → Option Engine.Workflow := fun wid =>
  if wid = "w1" then
    some { id := "w1", name := "wf", description := "d", personas := [c5Persona],
           created_by := "alice", created_at := "t0" }
  else none

/-- C5, the code evaluated at the failing input.  First conjunct: for a
workflow with one resolved persona and a completion client that
succeeds, `WorkflowEngine.execute_workflow` raises
`AttributeError: 'str' object has no attribute 'id'` while building
`persona_results` (line 346 iterates `final_state.results.items()` and
calls `.id` on the string keys), so no `RunResult` with the required
keys is ever persisted.  Second conjunct: when the pipeline's only step
raises instead (upstream failure), a result *is* persisted whose
persona-id key set is empty even though the workflow in effect has the
resolved persona `"p1"` — a key is missing for a resolved persona. -/
theorem C5_workflow_engine_result_keys_bug :
    (Engine.execute_workflow c5Workflows
        (fun p _ => Except.ok { persona_name := p.name, analysis := "ok analysis" })
        "r1" "t0" "t1" "w1" ⟨"doc body", "doc.txt", "txt"⟩ "alice"
      = Except.error "AttributeError: 'str' object has no attribute 'id'") ∧
    (∃ r, Engine.execute_workflow c5Workflows
        (fun _ _ => Except.error "upstream failure")
        "r1" "t0" "t1" "w1" ⟨"doc body", "doc.txt", "txt"⟩ "alice" = Except.ok r ∧
      r.analysis_content.map Prod.fst = [] ∧
      r.metadata.errors = ["Error in My Summary Persona: upstream failure"]) ∧
    (c5Workflows "w1").elim [] (fun wf => wf.personas.map Engine.Persona.id) = ["p1"] :=
  ⟨rfl, ⟨_, rfl, rfl, rfl⟩, rfl⟩

/-- C9 (amended): `WorkflowEngine.get_user_analyses` returns exactly the
stored results whose metadata records the requested user id (first
conjunct), and `WorkflowEngine.execute_workflow` does record the
submitting user in the persisted metadata (third conjunct);
`SimpleWorkflowEngine.get_user_analyses`, by contrast, ignores the user
id and returns every stored result for any user (second conjunct). -/
theorem C9_list_for_user
    (stored : List Engine.AnalysisResult) (user_id : String)
    (r : Engine.AnalysisResult)
    (simpleStored : List Simplified.AnalysisResult) (u : String)
    (workflows : String → Option Engine.Workflow)
    (step : Engine.Persona → Engine.DocumentInput →
      Except String Engine.PersonaStepResult)
    (freshId startTime endTime workflow_id : String)
    (doc : Engine.DocumentInput) (submitter : String) :
    (r ∈ Engine.get_user_analyses stored user_id ↔
      r ∈ stored ∧ r.metadata.user_id = some user_id) ∧
    (Simplified.get_user_analyses simpleStored u = simpleStored) ∧
    (∀ res, Engine.execute_workflow workflows step freshId startTime endTime
        workflow_id doc submitter = Except.ok res →
      res.metadata.user_id = some submitter) := by
  refine ⟨?_, rfl, ?_⟩
  · simp [Engine.get_user_analyses, List.mem_filter]
  · intro res hres
    cases hw : workflows workflow_id with
    | none => simp [Engine.execute_workflow, hw] at hres
    | some workflow =>
      simp only [Engine.execute_workflow, hw] at hres
      revert hres
      cases (Engine.run_persona_nodes step doc workflow.personas
          { results := [], errors := [], completed_personas := 0 }).results with
      | nil =>
        intro hres
        simp only [Except.ok.injEq] at hres
        rw [← hres]
      | cons a as =>
        intro hres
        simp at hres

/-- One stored engine result each for users alice and bob, for the C9
witness. -/
def c9AliceResult : Engine.AnalysisResult :=
  { id := "r1", workflow_id := "w1", document_name := "a.txt",
    analysis_content := [], persona_results := [],
    metadata := { start_time := "t0", total_personas := 0,
                  completed_personas := 0, end_time := "t1", errors := [],
                  user_id := some "alice" },
    created_at := "t1" }

theorem C9_list_for_user_witness :
    (c9AliceResult ∈ Engine.get_user_analyses [c9AliceResult] "alice" ↔
      c9AliceResult ∈ [c9AliceResult] ∧
        c9AliceResult.metadata.user_id = some "alice") ∧
    (Simplified.get_user_analyses [] "alice" = []) ∧
    (∀ res, Engine.execute_workflow (fun _ => none)
        (fun _ _ => Except.error "e") "r1" "t0" "t1" "w1"
        ⟨"c", "f", "txt"⟩ "alice" = Except.ok res →
      res.metadata.user_id = some "alice") :=
  C9_list_for_user [c9AliceResult] "alice" c9AliceResult [] "alice"
    (fun _ => none) (fun _ _ => Except.error "e") "r1" "t0" "t1" "w1"
    ⟨"c", "f", "txt"⟩ "alice"

/-- A result produced by `SimpleWorkflowEngine.execute_workflow` run by
user `"alice"` (the engine records no submitting user anywhere in the
result). -/
def c9SimpleResult : Simplified.AnalysisResult :=
  (Simplified.execute_workflow c2SimpleRegistry (fun _ => "stub") "r9" "t0"
    (Simplified.create_workflow "w9" "t0" "wf" "d" ["p1"] "alice")
    ⟨"doc", "a.txt"⟩ "alice").1

/-- C9 counterexample: `SimpleWorkflowEngine.get_user_analyses` returns
the result stored from user "alice"'s execution to the different user
"bob" as well — the stored result records no submitting user and the
filter is absent, so the returned list is not "exactly the results whose
metadata records that user id". -/
theorem C9_counterexample_simple_engine_ignores_user :
    Simplified.get_user_analyses [c9SimpleResult] "bob" = [c9SimpleResult] ∧
    Simplified.get_user_analyses [c9SimpleResult] "alice" = [c9SimpleResult] :=
  ⟨rfl, rfl⟩

namespace Advanced

/-- `advanced_workflow.py`, `@dataclass PersonaConfig` — the fields that
drive the orchestration (the prompt template, `temperature` and
`max_tokens` only configure the external completion client and are not
embedded; the rendered prompt is `prompt_template.format_messages(
input_text=..., context=json.dumps(context))`). -/
structure PersonaConfig where
  name : String
  description : String
  parallel_processing : Bool := false
deriving DecidableEq, Repr

/-- One step of `AdvancedWorkflowEngine.execute_workflow_async` as it
actually runs in CPython: which persona's coroutine body executed, the
contents of the shared `context` dict at the moment that body ran (the
name/output pairs it serialises into its prompt), and the output it
produced.  Outputs (`PersonaOutput` objects) are abstracted to strings;
their `confidence`/`key_findings` fields play no role in ordering or
visibility.  (On CPython, `json.dumps(context)` additionally raises
`TypeError` once `context` holds a `PersonaOutput`, since pydantic
models are not JSON-serialisable; the snapshot records what the body
reads either way.) -/
structure StepRun where
  persona : String
  ctx_snapshot : List (String × String)
  output : String
deriving DecidableEq, Repr

instance : Inhabited StepRun := ⟨⟨"", [], ""⟩⟩

/-- The execution order that `execute_workflow_async` (lines 105-153)
actually produces.  `persona.process_async(input_text, context)` (lines
127-130) creates a *coroutine object* without starting it, passing the
shared `context` dict by reference; the loop `for persona_name, task in
tasks: output = await task` (lines 133-136) then runs each body one at
a time, and `context[persona_name] = output` mutates the shared dict
between awaits.  There is no `asyncio.gather`, so the "parallel" group
is executed strictly sequentially, each member reading the dict as
already extended with every earlier member's output; the sequential
group follows, with the same one-at-a-time fold (lines 139-143). -/
def runOrder (oracle : String → String → List (String × String) → String)
    (inputText : String) : List String → List (String × String) → List StepRun
  | [], _ => []
  | name :: rest, ctx =>
    let output := oracle name inputText ctx
    ⟨name, ctx, output⟩ :: runOrder oracle inputText rest (ctx ++ [(name, output)])

/-- `AdvancedWorkflowEngine.execute_workflow_async` (lines 105-153):
validate-and-partition loop first (`raise ValueError` on an unknown
persona name, before any completion-client call; the partition keeps
each group's relative order), then the "parallel" group, then the
sequential group, both folded one step at a time over the shared
context dict starting from the empty dict.  `oracle` abstracts one
`process_async` completion-client interaction: it maps the persona
name, the input text and the context contents its body reads to the
output it produces. -/
def execute_workflow_async (personas : String → Option PersonaConfig)
    (oracle : String → String → List (String × String) → String)
    (inputText : String) (personaSequence : List String) :
    Except String (List StepRun) :=
  match personaSequence.find? (fun name => (personas name).isNone) with
  | some name => Except.error ("Persona '" ++ name ++ "' not found")
  | none =>
    let parallelPersonas := personaSequence.filter
      (fun name => ((personas name).map PersonaConfig.parallel_processing).getD false)
    let sequentialPersonas := personaSequence.filter
      (fun name => !(((personas name).map PersonaConfig.parallel_processing).getD false))
    Except.ok (runOrder oracle inputText (parallelPersonas ++ sequentialPersonas) [])

end Advanced

/-- Two personas both flagged `parallel_processing=True`, C3's failing
input. -/
def c3Personas : String → Option Advanced.PersonaConfig := fun name =>
  if name = "Claims Analysis" then
    some { name := "Claims Analysis",
           description := "Analyzes claims data and identifies patterns",
           parallel_processing := true }
  else if name = "Fraud Screening" then
    some { name := "Fraud Screening",
           description := "Screens for fraud indicators",
           parallel_processing := true }
  else none

/-- Oracle whose outputs name the persona that produced them. -/
def c3Oracle : String → String → List (String × String) → String :=
  fun name _ _ => "output of " ++ name

/-- C3, the code evaluated at the failing input: running
`execute_workflow_async` over two independent (parallel-flagged)
personas, the second one's coroutine body executes with the shared
context dict already holding the first one's output — its prompt
context is `[("Claims Analysis", "output of Claims Analysis")]`, not
the empty pre-phase context the claim requires — and each output is
folded into the context immediately, not together after the phase. -/
theorem C3_parallel_phase_leaks_peer_output :
    Advanced.execute_workflow_async c3Personas c3Oracle "claim doc"
        ["Claims Analysis", "Fraud Screening"]
      = Except.ok
          [{ persona := "Claims Analysis", ctx_snapshot := [],
             output := "output of Claims Analysis" },
           { persona := "Fraud Screening",
             ctx_snapshot := [("Claims Analysis", "output of Claims Analysis")],
             output := "output of Fraud Screening" }] ∧
    (((Advanced.execute_workflow_async c3Personas c3Oracle "claim doc"
        ["Claims Analysis", "Fraud Screening"]).toOption.getD []).getD 1
          default).ctx_snapshot ≠ [] :=
  ⟨rfl, by decide⟩

namespace Engine

/-- Python values as produced by `json.loads` (the Conversation Layer
parses completion-client replies with it and otherwise passes the value
through unchanged). -/
inductive PyObj where
  | pstr (s : String)
  | pnum (n : Int)
  | pbool (b : Bool)
  | pnull
  | parr (xs : List PyObj)
  | pobj (kvs : List (String × PyObj))

/-- `ChatSystem._create_context_prompt` (`src/chat_system.py` lines
19-47): optional workflow block (name, description, persona list), then
an `"\nAnalysis Results:"` header and, per stored step, the persona's
label line and its analysis text, all joined with newlines.  (The
`isinstance(analysis_content, dict)` branch pretty-prints structured
agent output; the embedded `PersonaStepResult.analysis` is the string
case.) -/
def create_context_prompt (workflows : String → Option Workflow)
    (ar : AnalysisResult) : String :=
  let workflowParts :=
    match workflows ar.workflow_id with
    | some workflow =>
        ["Workflow: " ++ workflow.name, "Description: " ++ workflow.description,
         "Personas used:"]
        ++ workflow.personas.map
            (fun persona => "- " ++ persona.name ++ ": " ++ persona.description)
    | none => []
  let resultParts :=
    ["\nAnalysis Results:"] ++
    (ar.analysis_content.map (fun pr =>
      ["\n" ++ pr.2.persona_name ++ " Analysis:", pr.2.analysis])).flatten
  String.intercalate "\n" (workflowParts ++ resultParts)

/-- The fixed fallback object of `ChatSystem.get_analysis_summary`
(lines 159-167), substituted when `json.loads` raises on the reply. -/
def fallback_summary : PyObj :=
  PyObj.pobj
    [("executive_summary", PyObj.pstr "Analysis completed successfully"),
     ("key_insights", PyObj.parr [PyObj.pstr "Analysis results available for review"]),
     ("critical_findings", PyObj.parr []),
     ("recommendations", PyObj.parr [PyObj.pstr "Review the detailed analysis results"]),
     ("risk_level", PyObj.pstr "unknown"),
     ("next_steps", PyObj.parr [PyObj.pstr "Engage with the analysis through chat"])]

/-- The summary prompt of `ChatSystem.get_analysis_summary` (lines
136-148). -/
def summary_prompt (workflows : String → Option Workflow) (ar : AnalysisResult) : String :=
  "Based on the following analysis results, provide a concise summary with key insights:\n\n"
  ++ create_context_prompt workflows ar
  ++ "\n\nProvide the summary in JSON format with the following structure:\n\x7b\n    \"executive_summary\": \"Brief overview of key findings\",\n    \"key_insights\": [\"list of most important insights\"],\n    \"critical_findings\": [\"list of critical findings that need attention\"],\n    \"recommendations\": [\"list of actionable recommendations\"],\n    \"risk_level\": \"overall risk assessment (low/medium/high)\",\n    \"next_steps\": [\"suggested next steps\"]\n\x7d"

/-- The value returned by `ChatSystem.get_analysis_summary` (lines
169-175). -/
structure SummaryReturn where
  analysis_id : String
  document_name : String
  workflow_id : String
  created_at : String
  summary : PyObj

/-- `ChatSystem.get_analysis_summary` (`src/chat_system.py` lines
130-175): raise `ValueError` only when the analysis id is unknown;
otherwise issue one completion-client call and `json.loads` the reply —
`except: summary_data = {fixed fallback}` replaces a raised parse error
by `fallback_summary`, while any successfully parsed value (whatever
its shape) is passed through unchanged. -/
def get_analysis_summary (store : String → Option AnalysisResult)
    (workflows : String → Option Workflow)
    (json_loads : String → Option PyObj) (llm : String → String)
    (analysis_id : String) : Except String SummaryReturn :=
  match store analysis_id with
  | none => Except.error ("Analysis " ++ analysis_id ++ " not found")
  | some ar =>
    let response := llm (summary_prompt workflows ar)
    let summary_data := (json_loads response).getD fallback_summary
    Except.ok { analysis_id := analysis_id, document_name := ar.document_name,
                workflow_id := ar.workflow_id, created_at := ar.created_at,
                summary := summary_data }

/-- Rendering of `json.dumps(analysis.analysis_content, indent=2)` used
inside the comparison context (line 197).  The exact indentation of the
Python output is not reproduced — no claim inspects this text, the
completion client being universally quantified — only its content. -/
def dump_results (results : List (String × PersonaStepResult)) : String :=
  "\x7b" ++ String.intercalate ", " (results.map (fun pr =>
    "\"" ++ pr.1 ++ "\": \x7b\"persona_name\": \"" ++ pr.2.persona_name
      ++ "\", \"analysis\": \"" ++ pr.2.analysis ++ "\"\x7d")) ++ "\x7d"

/-- The comparison context of `ChatSystem.get_comparative_analysis`
(lines 192-197): one block per found analysis, numbered from 1. -/
def comparison_context (workflows : String → Option Workflow)
    (analyses : List AnalysisResult) : String :=
  "Comparing the following analyses:\n\n" ++
  String.join ((analyses.enumFrom 1).map (fun ia =>
    "Analysis " ++ toString ia.1 ++ ":\n"
    ++ "Document: " ++ ia.2.document_name ++ "\n"
    ++ "Workflow: " ++ (match workflows ia.2.workflow_id with
                        | some wf => wf.name
                        | none => "Unknown") ++ "\n"
    ++ "Results: " ++ dump_results ia.2.analysis_content ++ "\n\n"))

/-- The comparison prompt of `ChatSystem.get_comparative_analysis`
(lines 199-211). -/
def comparison_prompt_of (workflows : String → Option Workflow)
    (analyses : List AnalysisResult) : String :=
  "Compare the following analyses and provide insights:\n\n"
  ++ comparison_context workflows analyses
  ++ "\n\nProvide the comparison in JSON format with the following structure:\n\x7b\n    \"overview\": \"Brief comparison overview\",\n    \"similarities\": [\"key similarities between analyses\"],\n    \"differences\": [\"key differences between analyses\"],\n    \"trends\": [\"any trends or patterns identified\"],\n    \"insights\": [\"comparative insights\"],\n    \"recommendations\": [\"recommendations based on comparison\"]\n\x7d"

/-- The fixed fallback object of `ChatSystem.get_comparative_analysis`
(lines 222-230). -/
def fallback_comparison : PyObj :=
  PyObj.pobj
    [("overview", PyObj.pstr "Multiple analyses compared"),
     ("similarities", PyObj.parr [PyObj.pstr "All analyses completed successfully"]),
     ("differences", PyObj.parr [PyObj.pstr "Different documents and workflows analyzed"]),
     ("trends", PyObj.parr [PyObj.pstr "No clear trends identified"]),
     ("insights", PyObj.parr [PyObj.pstr "Each analysis provides unique insights"]),
     ("recommendations", PyObj.parr [PyObj.pstr "Review each analysis individually"])]

/-- The value returned by `ChatSystem.get_comparative_analysis` (lines
232-236); `timestamp` is `datetime.now().isoformat()`, passed in as
`now`. -/
structure CompareReturn where
  analysis_ids : List String
  comparison : PyObj
  timestamp : String

/-- `ChatSystem.get_comparative_analysis` (`src/chat_system.py` lines
177-236): raise `ValueError` for fewer than 2 requested ids or fewer
than 2 found analyses, otherwise one completion-client call whose reply
is parsed with the same `json.loads`-or-fallback discipline as the
summary (parse error → `fallback_comparison`; parsed values of any
shape pass through). -/
def get_comparative_analysis (store : String → Option AnalysisResult)
    (workflows : String → Option Workflow)
    (json_loads : String → Option PyObj) (llm : String → String)
    (now : String) (analysis_ids : List String) : Except String CompareReturn :=
  if analysis_ids.length < 2 then
    Except.error "At least 2 analysis IDs required for comparison"
  else
    let analyses := analysis_ids.filterMap store
    if analyses.length < 2 then
      Except.error "Could not find at least 2 valid analyses for comparison"
    else
      let response := llm (comparison_prompt_of workflows analyses)
      let comparison_data := (json_loads response).getD fallback_comparison
      Except.ok { analysis_ids := analysis_ids, comparison := comparison_data,
                  timestamp := now }

end Engine

/-- C7 (amended): for a stored run (and, for `compare`, at least two
requested-and-found runs), `get_analysis_summary` and
`get_comparative_analysis` never raise whatever the completion client
replies (first and third conjuncts), and when the reply fails to parse
as JSON (`json_loads` = `none`, a raised `json.JSONDecodeError`) they
return the fixed fallback object in the result, not an error (second
and fourth conjuncts).  A reply that parses as JSON but has the wrong
shape is NOT replaced by the fallback — see the counterexample. -/
theorem C7_summary_and_compare_never_raise
    (store : String → Option Engine.AnalysisResult)
    (workflows : String → Option Engine.Workflow)
    (json_loads : String → Option Engine.PyObj) (llm : String → String)
    (now aid : String) (ar : Engine.AnalysisResult) (ids : List String)
    (hstore : store aid = some ar)
    (hlen : 2 ≤ ids.length) (hfound : 2 ≤ (ids.filterMap store).length) :
    (∃ r, Engine.get_analysis_summary store workflows json_loads llm aid
      = Except.ok r) ∧
    (json_loads (llm (Engine.summary_prompt workflows ar)) = none →
      Engine.get_analysis_summary store workflows json_loads llm aid
        = Except.ok { analysis_id := aid, document_name := ar.document_name,
                      workflow_id := ar.workflow_id, created_at := ar.created_at,
                      summary := Engine.fallback_summary }) ∧
    (∃ c, Engine.get_comparative_analysis store workflows json_loads llm now ids
      = Except.ok c) ∧
    (json_loads (llm (Engine.comparison_prompt_of workflows (ids.filterMap store)))
        = none →
      Engine.get_comparative_analysis store workflows json_loads llm now ids
        = Except.ok { analysis_ids := ids, comparison := Engine.fallback_comparison,
                      timestamp := now }) := by
  have h1 : ¬ ids.length < 2 := by omega
  have h2 : ¬ (ids.filterMap store).length < 2 := by omega
  refine ⟨?_, ?_, ?_, ?_⟩
  · refine ⟨{ analysis_id := aid, document_name := ar.document_name,
              workflow_id := ar.workflow_id, created_at := ar.created_at,
              summary := (json_loads (llm (Engine.summary_prompt workflows
                ar))).getD Engine.fallback_summary }, ?_⟩
    simp [Engine.get_analysis_summary, hstore]
  · intro hj
    simp [Engine.get_analysis_summary, hstore, hj]
  · refine ⟨{ analysis_ids := ids,
              comparison := (json_loads (llm (Engine.comparison_prompt_of workflows
                (ids.filterMap store)))).getD Engine.fallback_comparison,
              timestamp := now }, ?_⟩
    simp [Engine.get_comparative_analysis, h1, h2]
  · intro hj
    simp [Engine.get_comparative_analysis, h1, h2, hj]

/-- A stored analysis result, for the C7 theorems. -/
def c7Result : Engine.AnalysisResult :=
  { id := "a1", workflow_id := "w1", document_name := "doc.txt",
    analysis_content := [("p1", { persona_name := "Technical Reviewer",
                                  analysis := "looks fine" })],
    persona_results := [("p1", "looks fine")],
    metadata := { start_time := "t0", total_personas := 1, completed_personas := 1,
                  end_time := "t1", errors := [], user_id := some "alice" },
    created_at := "t1" }

/-- A second stored analysis result, for the C7 compare witness. -/
def c7ResultB : Engine.AnalysisResult :=
  { id := "a2", workflow_id := "w1", document_name := "other.txt",
    analysis_content := [("p1", { persona_name := "Technical Reviewer",
                                  analysis := "needs work" })],
    persona_results := [("p1", "needs work")],
    metadata := { start_time := "t0", total_personas := 1, completed_personas := 1,
                  end_time := "t1", errors := [], user_id := some "bob" },
    created_at := "t1" }

/-- Result store holding the two C7 results. -/
def c7Store : String → Option Engine.AnalysisResult := fun aid =>
  if aid = "a1" then some c7Result
  else if aid = "a2" then some c7ResultB
  else none

theorem C7_summary_and_compare_never_raise_witness :
    (∃ r, Engine.get_analysis_summary c7Store (fun _ => none) (fun _ => none)
      (fun _ => "this is not json") "a1" = Except.ok r) ∧
    ((fun (_ : String) => (none : Option Engine.PyObj))
        ((fun (_ : String) => "this is not json")
          (Engine.summary_prompt (fun _ => none) c7Result)) = none →
      Engine.get_analysis_summary c7Store (fun _ => none) (fun _ => none)
        (fun _ => "this is not json") "a1"
        = Except.ok { analysis_id := "a1", document_name := c7Result.document_name,
                      workflow_id := c7Result.workflow_id,
                      created_at := c7Result.created_at,
                      summary := Engine.fallback_summary }) ∧
    (∃ c, Engine.get_comparative_analysis c7Store (fun _ => none) (fun _ => none)
      (fun _ => "this is not json") "t2" ["a1", "a2"] = Except.ok c) ∧
    ((fun (_ : String) => (none : Option Engine.PyObj))
        ((fun (_ : String) => "this is not json")
          (Engine.comparison_prompt_of (fun _ => none)
            (["a1", "a2"].filterMap c7Store))) = none →
      Engine.get_comparative_analysis c7Store (fun _ => none) (fun _ => none)
        (fun _ => "this is not json") "t2" ["a1", "a2"]
        = Except.ok { analysis_ids := ["a1", "a2"],
                      comparison := Engine.fallback_comparison,
                      timestamp := "t2" }) :=
  C7_summary_and_compare_never_raise c7Store (fun _ => none) (fun _ => none)
    (fun _ => "this is not json") "t2" "a1" c7Result ["a1", "a2"]
    rfl (by decide) (by decide)

/-- `json.loads` on the reply `"42"`: valid JSON, parsing to the number
42 (`json.loads("42") == 42` in Python). -/
def c7JsonLoads : String → Option Engine.PyObj := fun s =>
  if s = "42" then some (Engine.PyObj.pnum 42) else none

/-- C7 counterexample: with a completion client replying `"42"` — valid
JSON that is not of the expected six-field object shape —
`get_analysis_summary` neither raises nor substitutes the fixed
fallback object: the parsed number is returned unchanged, so "return a
fixed fallback object" fails for a reply that is "not valid JSON of the
expected shape" (the code checks parseability only, never the shape). -/
theorem C7_counterexample_wrong_shape_not_replaced :
    (Engine.get_analysis_summary c7Store (fun _ => none) c7JsonLoads
        (fun _ => "42") "a1"
      = Except.ok { analysis_id := "a1", document_name := "doc.txt",
                    workflow_id := "w1", created_at := "t1",
                    summary := Engine.PyObj.pnum 42 }) ∧
    Engine.PyObj.pnum 42 ≠ Engine.fallback_summary :=
  ⟨rfl, fun h => Engine.PyObj.noConfusion h⟩

namespace Simplified

/-- `src/simplified_models.py`, class `ChatMessage`. -/
structure ChatMessage where
  analysis_id : String
  message : String
  response : String
  timestamp : String
deriving DecidableEq, Repr

instance : Inhabited ChatMessage := ⟨⟨"", "", "", ""⟩⟩

/-- The mutable state of `SimpleChatSystem`: the per-run `chat_history`
dict.  A run id without an entry is modelled as mapping to `[]` — the
code reads with `.get(analysis_id, [])`, and `send_message` only ever
installs nonempty lists, so key presence coincides with a nonempty
history. -/
structure ChatState where
  chat_history : String → List ChatMessage

/-- `SimpleChatSystem._build_context` (`src/simplified_chat.py` lines
17-32). -/
def build_context (workflows : String → Option Workflow)
    (registry : String → Option Persona) (ar : AnalysisResult) : String :=
  let baseParts := ["Document: " ++ ar.document_name]
  let parts :=
    match workflows ar.workflow_id with
    | some workflow =>
        baseParts ++ ["Workflow: " ++ workflow.name, "Analysis Results:"]
        ++ ar.results.map (fun pr =>
            "\n" ++ (match registry pr.1 with
                     | some persona => persona.name
                     | none => "Unknown") ++ ": " ++ pr.2)
    | none => baseParts
  String.intercalate "\n" parts

/-- The system message of `SimpleChatSystem.send_message` (lines 44-49). -/
def chat_system_message (workflows : String → Option Workflow)
    (registry : String → Option Persona) (ar : AnalysisResult) : String :=
  "You are an AI assistant helping a user understand their document analysis results.\n\nAnalysis Context:\n"
  ++ build_context workflows registry ar
  ++ "\n\nHelp the user understand the results, answer questions, and provide insights. Be conversational and helpful."

/-- `SimpleChatSystem.send_message` (`src/simplified_chat.py` lines
34-72): `ValueError` for an unknown analysis id; otherwise one
completion-client call (`llm` receives the system message and the user
message — the two messages sent) whose reply is wrapped in a
`ChatMessage` that is appended to this run's history and returned.
`datetime.now().isoformat()` is the parameter `now`. -/
def send_message (store : String → Option AnalysisResult)
    (workflows : String → Option Workflow) (registry : String → Option Persona)
    (llm : String → String → String) (now : String) (s : ChatState)
    (analysis_id message _user_id : String) :
    Except String (ChatMessage × ChatState) :=
  match store analysis_id with
  | none => Except.error ("Analysis " ++ analysis_id ++ " not found")
  | some ar =>
    let response := llm (chat_system_message workflows registry ar) message
    let chat_message : ChatMessage :=
      { analysis_id := analysis_id, message := message, response := response,
        timestamp := now }
    Except.ok (chat_message,
      { chat_history := fun aid =>
          if aid = analysis_id then s.chat_history aid ++ [chat_message]
          else s.chat_history aid })

/-- `SimpleChatSystem.get_chat_history` (lines 74-76). -/
def get_chat_history (s : ChatState) (analysis_id : String) : List ChatMessage :=
  s.chat_history analysis_id

/-- `SimpleChatSystem.clear_chat_history` (lines 78-83): delete the
run's entry when present (returning `True`), else return `False` with
the state unchanged. -/
def clear_chat_history (s : ChatState) (analysis_id : String) : Bool × ChatState :=
  if s.chat_history analysis_id = [] then (false, s)
  else (true, { chat_history := fun aid =>
      if aid = analysis_id then [] else s.chat_history aid })

/-- Iterated `send_message` over a list of user messages against one
run; `times k` is the clock reading at the k-th call. -/
def send_many (store : String → Option AnalysisResult)
    (workflows : String → Option Workflow) (registry : String → Option Persona)
    (llm : String → String → String) (times : Nat → String)
    (analysis_id user_id : String) :
    ChatState → Nat → List String → Except String ChatState
  | s, _, [] => Except.ok s
  | s, k, m :: rest =>
    match send_message store workflows registry llm (times k) s analysis_id m user_id with
    | Except.error e => Except.error e
    | Except.ok (_, s') =>
        send_many store workflows registry llm times analysis_id user_id s' (k + 1) rest

/-- History bookkeeping of iterated sends against a stored run: they all
succeed, append exactly the sent messages in call order to this run's
history, and leave every other run's history untouched. -/
theorem send_many_history (store : String → Option AnalysisResult)
    (workflows : String → Option Workflow) (registry : String → Option Persona)
    (llm : String → String → String) (times : Nat → String)
    (analysis_id user_id : String) (ar : AnalysisResult)
    (hstore : store analysis_id = some ar) :
    ∀ (msgs : List String) (s : ChatState) (k : Nat),
      ∃ s', send_many store workflows registry llm times analysis_id user_id
          s k msgs = Except.ok s' ∧
        (s'.chat_history analysis_id).map ChatMessage.message
          = (s.chat_history analysis_id).map ChatMessage.message ++ msgs ∧
        (s'.chat_history analysis_id).length
          = (s.chat_history analysis_id).length + msgs.length ∧
        ∀ other, other ≠ analysis_id →
          s'.chat_history other = s.chat_history other := by
  intro msgs
  induction msgs with
  | nil =>
    intro s k
    exact ⟨s, rfl, by simp, by simp, fun _ _ => rfl⟩
  | cons m rest ih =>
    intro s k
    obtain ⟨s', hrun, hmap, hlen, hother⟩ := ih
      { chat_history := fun aid =>
          if aid = analysis_id then
            s.chat_history aid ++
              [{ analysis_id := analysis_id, message := m,
                 response := llm (chat_system_message workflows registry ar) m,
                 timestamp := times k }]
          else s.chat_history aid } (k + 1)
    refine ⟨s', ?_, ?_, ?_, ?_⟩
    · simp only [send_many, send_message, hstore]
      exact hrun
    · rw [hmap]
      simp
    · rw [hlen]
      simp
      omega
    · intro other hne
      rw [hother other hne]
      simp [hne]
end Simplified

/-- C8: per-run conversation state of `SimpleChatSystem` (`ChatSystem`'s
history bookkeeping in `src/chat_system.py` follows the same
one-append-per-send, delete-on-clear discipline).  Starting from a run
with no history: N successful `ask` calls leave exactly N turns whose
user messages are the sent messages in call order; no send touches any
other run's history (no other transitions); `clear` leaves zero turns;
and a subsequent `ask` yields a history of length exactly 1.
`summarize`/`compare` (`get_analysis_summary` /
`get_comparative_analysis`) neither receive nor return chat state, so
they are reads that cannot move this state machine. -/
theorem C8_conversation_history_state_machine
    (store : String → Option Simplified.AnalysisResult)
    (workflows : String → Option Simplified.Workflow)
    (registry : String → Option Simplified.Persona)
    (llm : String → String → String) (times : Nat → String)
    (analysis_id user_id : String) (ar : Simplified.AnalysisResult)
    (msgs : List String) (s : Simplified.ChatState)
    (hstore : store analysis_id = some ar)
    (hempty : s.chat_history analysis_id = []) :
    ∃ s', Simplified.send_many store workflows registry llm times analysis_id
        user_id s 0 msgs = Except.ok s' ∧
      (Simplified.get_chat_history s' analysis_id).map
          Simplified.ChatMessage.message = msgs ∧
      (Simplified.get_chat_history s' analysis_id).length = msgs.length ∧
      (∀ other, other ≠ analysis_id →
        Simplified.get_chat_history s' other = Simplified.get_chat_history s other) ∧
      Simplified.get_chat_history
        (Simplified.clear_chat_history s' analysis_id).2 analysis_id = [] ∧
      (∀ m now, ∃ cm s'',
        Simplified.send_message store workflows registry llm now
            (Simplified.clear_chat_history s' analysis_id).2 analysis_id m user_id
          = Except.ok (cm, s'') ∧
        (Simplified.get_chat_history s'' analysis_id).length = 1) := by
  obtain ⟨s', hrun, hmap, hlen, hother⟩ :=
    Simplified.send_many_history store workflows registry llm times analysis_id
      user_id ar hstore msgs s 0
  have hcleared :
      (Simplified.clear_chat_history s' analysis_id).2.chat_history analysis_id = [] := by
    unfold Simplified.clear_chat_history
    split_ifs with h
    · exact h
    · simp
  refine ⟨s', hrun, ?_, ?_, hother, hcleared, ?_⟩
  · rw [Simplified.get_chat_history, hmap, hempty]
    simp
  · rw [Simplified.get_chat_history, hlen, hempty]
    simp
  · intro m now
    refine ⟨{ analysis_id := analysis_id, message := m,
              response := llm (Simplified.chat_system_message workflows registry ar) m,
              timestamp := now },
            { chat_history := fun aid =>
                if aid = analysis_id then
                  (Simplified.clear_chat_history s' analysis_id).2.chat_history aid ++
                    [{ analysis_id := analysis_id, message := m,
                       response := llm (Simplified.chat_system_message workflows
                         registry ar) m,
                       timestamp := now }]
                else (Simplified.clear_chat_history s' analysis_id).2.chat_history aid },
            ?_, ?_⟩
    · simp only [Simplified.send_message, hstore]
    · rw [Simplified.get_chat_history]
      simp [hcleared]

/-- Stored run, workflow and registry for the C8 witness. -/
def c8Store : String → Option Simplified.AnalysisResult := fun aid =>
  if aid = "a1" then
    some { id := "a1", workflow_id := "w1", document_name := "doc.txt",
           results := [("p1", "stub analysis")], created_at := "t1" }
  else none

theorem C8_conversation_history_state_machine_witness :
    ∃ s', Simplified.send_many c8Store (fun _ => none) (fun _ => none)
        (fun _ _ => "reply") (fun _ => "t2") "a1" "alice"
        { chat_history := fun _ => [] } 0 ["q1", "q2", "q3"] = Except.ok s' ∧
      (Simplified.get_chat_history s' "a1").map Simplified.ChatMessage.message
        = ["q1", "q2", "q3"] ∧
      (Simplified.get_chat_history s' "a1").length = ["q1", "q2", "q3"].length ∧
      (∀ other, other ≠ "a1" →
        Simplified.get_chat_history s' other
          = Simplified.get_chat_history { chat_history := fun _ => [] } other) ∧
      Simplified.get_chat_history
        (Simplified.clear_chat_history s' "a1").2 "a1" = [] ∧
      (∀ m now, ∃ cm s'',
        Simplified.send_message c8Store (fun _ => none) (fun _ => none)
            (fun _ _ => "reply") now
            (Simplified.clear_chat_history s' "a1").2 "a1" m "alice"
          = Except.ok (cm, s'') ∧
        (Simplified.get_chat_history s'' "a1").length = 1) :=
  C8_conversation_history_state_machine c8Store (fun _ => none) (fun _ => none)
    (fun _ _ => "reply") (fun _ => "t2") "a1" "alice"
    { id := "a1", workflow_id := "w1", document_name := "doc.txt",
      results := [("p1", "stub analysis")], created_at := "t1" }
    ["q1", "q2", "q3"] { chat_history := fun _ => [] } rfl rfl
